import Mathlib

/-!
Verification of the XML-to-typed-object mapping layer of the
python-mirth-client repository (src/mirth_client/models.py and
src/mirth_client/channels.py).

The embedding works on the tree level of XML documents: an XML text that
the expat parser accepts is represented as an XmlNode tree (tag,
attributes, element children, optional text), and a text that expat
rejects is represented by RawInput.malformed carrying the parser message.
On top of that tree, xmltodict.parse and xmltodict.unparse are embedded
as parseElem / unparseOne, following the documented xmltodict semantics
the repository relies on: a repeated child tag becomes a list, a single
occurrence stays a bare value unless its tag is force-listed, attributes
become keys marked with a leading at sign, element text is stripped of
surrounding whitespace (the strip_whitespace default) and becomes a
string value, and an empty or whitespace-only element becomes null
(Python None).

The pydantic v1 layer is embedded per model: field lookup by camelCase
alias, pre-validators, per-field coercions (int, bool, UUID, str), and
accumulation of all field errors into a single ValidationError, which
XMLBaseModel.parse_raw then catches (pydantic ValidationError is a
subclass of ValueError) and re-wraps in a fresh ValidationError with a
single ErrorWrapper at loc __obj__.  Exception classes outside the
caught sets, such as the KeyError one map-decoder branch can raise or
the AttributeError of the datetime decoder on a non-mapping, abort
validation and escape to the caller unwrapped; they are threaded through
the DecodeFail.uncaught channel.
-/

/-- The generic value produced by xmltodict.parse: Python None, a string,
an ordered dictionary (XMLDict), or a list. -/
inductive XValue where
  | null
  | str (s : String)
  | obj (ps : List (String × XValue))
  | list (xs : List XValue)

/-- An XML element tree as seen by expat: tag, attributes in document
order, element children in document order, and optional character data.
Mixed content (text interleaved with children) does not occur in the
documents this client exchanges and is not modelled beyond a single
text slot. -/
inductive XmlNode where
  | elem (tag : String) (attrs : List (String × String)) (children : List XmlNode) (text : Option String)

def tagOf : XmlNode → String
  | XmlNode.elem t _ _ _ => t

def textOf : XmlNode → Option String
  | XmlNode.elem _ _ _ tx => tx

def childrenOf : XmlNode → List XmlNode
  | XmlNode.elem _ _ cs _ => cs

/-- Ordered-dictionary lookup, Python dict access by key. -/
def lookupX : List (String × XValue) → String → Option XValue
  | [], _ => none
  | (k, v) :: rest, key => if k = key then some v else lookupX rest key

/-- Ordered-dictionary update in place: replaces the value stored at the
first occurrence of the key, keeping its position, like assignment to an
existing key of a Python dict. -/
def setX : List (String × XValue) → String → XValue → List (String × XValue)
  | [], _, _ => []
  | (k, v) :: rest, key, w => if k = key then (k, w) :: rest else (k, v) :: setX rest key w

/-- xmltodict push_data: add one parsed child under its tag.  A fresh tag
is stored bare (or as a one-element list when the tag is force-listed); a
tag already stored as a list gets the new value appended; a tag already
stored bare is promoted to a two-element list. -/
def pushData (fl : List String) (acc : List (String × XValue)) (key : String) (v : XValue) : List (String × XValue) :=
  match lookupX acc key with
  | none => if key ∈ fl then acc ++ [(key, XValue.list [v])] else acc ++ [(key, v)]
  | some (XValue.list xs) => setX acc key (XValue.list (xs ++ [v]))
  | some old => setX acc key (XValue.list [old, v])

/-- Attributes become dictionary keys marked with a leading at sign. -/
def attrsToPairs (attrs : List (String × String)) : List (String × XValue) :=
  attrs.map (fun p => ("@" ++ p.1, XValue.str p.2))

/-- Element text contributes a text key when the element also has
children or attributes. -/
def textPairs : Option String → List (String × XValue)
  | none => []
  | some t => [("#text", XValue.str t)]

/-- The whitespace set Python strip and int remove at both ends. -/
def pyWhitespace (c : Char) : Bool :=
  c = ' ' ∨ c = '\t' ∨ c = '\n' ∨ c = '\r' ∨ c = '\x0b' ∨ c = '\x0c'

def trimChars (cs : List Char) : List Char :=
  ((cs.dropWhile pyWhitespace).reverse.dropWhile pyWhitespace).reverse

/-- xmltodict default strip_whitespace behaviour: character data is
stripped of surrounding whitespace when the element ends, and
whitespace-only text counts as no text at all. -/
def stripText : Option String → Option String
  | none => none
  | some t =>
    if String.mk (trimChars t.data) = "" then none else some (String.mk (trimChars t.data))

mutual

/-- xmltodict.parse of one element, with the force-list set fl: an empty
element is None, a text-only element is its string, and an element with
attributes or children is an ordered dictionary built by pushData. -/
def parseElem (fl : List String) : XmlNode → XValue
  | XmlNode.elem _ attrs children text =>
    if children.isEmpty then
      if attrs.isEmpty then
        match stripText text with
        | none => XValue.null
        | some t => XValue.str t
      else XValue.obj (attrsToPairs attrs ++ textPairs (stripText text))
    else XValue.obj (parseChildren fl (attrsToPairs attrs) children ++ textPairs (stripText text))

def parseChildren (fl : List String) (acc : List (String × XValue)) : List XmlNode → List (String × XValue)
  | [] => acc
  | c :: cs => parseChildren fl (pushData fl acc (tagOf c) (parseElem fl c)) cs

end

/-- xmltodict.parse of a whole document: a one-key mapping from the root
tag to the parsed root content. -/
def xmltodict_parse (fl : List String) (doc : XmlNode) : XValue :=
  XValue.obj [(tagOf doc, parseElem fl doc)]

/-- Attribute values are emitted as text (xmltodict unparse calls
unicode on them; only strings occur here). -/
def attrStr : XValue → String
  | XValue.str s => s
  | _ => ""

def unparseAttrs : List (String × XValue) → List (String × String)
  | [] => []
  | (k, v) :: rest =>
    if k.take 1 = "@" then (k.drop 1, attrStr v) :: unparseAttrs rest
    else unparseAttrs rest

def unparseText : List (String × XValue) → Option String
  | [] => none
  | (k, v) :: rest => if k = "#text" then some (attrStr v) else unparseText rest

mutual

/-- xmltodict.unparse of one value under a given tag.  Writing an empty
string writes no character data at all, so the empty string and None
serialize to the same empty element: this is where the codec is lossy. -/
def unparseOne (tag : String) : XValue → XmlNode
  | XValue.null => XmlNode.elem tag [] [] none
  | XValue.str s => XmlNode.elem tag [] [] (if s = "" then none else some s)
  | XValue.obj ps => XmlNode.elem tag (unparseAttrs ps) (unparseKids ps) (unparseText ps)
  | XValue.list _ => XmlNode.elem tag [] [] none

def unparseKids : List (String × XValue) → List XmlNode
  | [] => []
  | (k, v) :: rest =>
    if k.take 1 = "@" ∨ k = "#text" then unparseKids rest
    else
      match v with
      | XValue.list xs => unparseItems k xs ++ unparseKids rest
      | w => unparseOne k w :: unparseKids rest

def unparseItems (k : String) : List XValue → List XmlNode
  | [] => []
  | v :: rest => unparseOne k v :: unparseItems k rest

end

/-- A key that is a plain element name: nonempty, not an attribute key,
not the text key. -/
def plainKey (k : String) : Bool :=
  (k != "") && (k.take 1 != "@") && (k != "#text")

def keyNotIn (k : String) (ps : List (String × XValue)) : Bool :=
  ps.all (fun p => p.1 != k)

mutual

/-- Values free of the ambiguities and losses of the XML encoding:
strings nonempty, dictionaries nonempty with distinct plain keys, lists
only as field values with at least two elements. -/
def goodVal : XValue → Bool
  | XValue.null => true
  | XValue.str s => (s != "") && (String.mk (trimChars s.data) == s)
  | XValue.obj ps => (!ps.isEmpty) && goodPairs ps
  | XValue.list _ => false

def goodPairs : List (String × XValue) → Bool
  | [] => true
  | (k, v) :: rest => plainKey k && keyNotIn k rest && goodField v && goodPairs rest

def goodField : XValue → Bool
  | XValue.list xs => decide (xs.length ≥ 2) && goodItems xs
  | XValue.null => true
  | XValue.str s => (s != "") && (String.mk (trimChars s.data) == s)
  | XValue.obj ps => (!ps.isEmpty) && goodPairs ps

def goodItems : List XValue → Bool
  | [] => true
  | v :: rest => goodVal v && goodItems rest

end

/-! ## Python value coercions used by the pydantic v1 layer -/

/-- Digit run of a Python integer literal: digits with single underscores
allowed between digits. -/
def pyDigitsGo : Nat → List Char → Option Nat
  | acc, [] => some acc
  | acc, '_' :: c :: cs => if c.isDigit then pyDigitsGo (acc * 10 + (c.toNat - 48)) cs else none
  | _, ['_'] => none
  | acc, c :: cs => if c.isDigit then pyDigitsGo (acc * 10 + (c.toNat - 48)) cs else none

def pyDigits : List Char → Option Nat
  | [] => none
  | c :: cs => if c.isDigit then pyDigitsGo (c.toNat - 48) cs else none

/-- Python int(s): optional surrounding whitespace, optional sign, then a
digit run (ASCII digits modelled; exotic unicode digits do not occur in
this wire format). Returns none where Python raises ValueError. -/
def pyInt (s : String) : Option Int :=
  match trimChars s.data with
  | '+' :: rest => (pyDigits rest).map (fun n => (n : Int))
  | '-' :: rest => (pyDigits rest).map (fun n => -(n : Int))
  | rest => (pyDigits rest).map (fun n => (n : Int))

/-- ASCII lowercase, the case folding this wire format needs. -/
def lowerChar (c : Char) : Char :=
  if 'A' ≤ c ∧ c ≤ 'Z' then Char.ofNat (c.toNat + 32) else c

def lowerStr (s : String) : String :=
  String.mk (s.data.map lowerChar)

/-- pydantic v1 bool_validator on a string value. -/
def pyBool (s : String) : Option Bool :=
  let t := lowerStr s
  if t = "y" ∨ t = "yes" ∨ t = "t" ∨ t = "true" ∨ t = "on" ∨ t = "1" then some true
  else if t = "n" ∨ t = "no" ∨ t = "f" ∨ t = "false" ∨ t = "off" ∨ t = "0" then some false
  else none

def listStartsWith : List Char → List Char → Bool
  | [], _ => true
  | _ :: _, [] => false
  | p :: ps, c :: cs => p = c && listStartsWith ps cs

/-- Consume the pattern from the head of the list, when it is there. -/
def dropPat : List Char → List Char → Option (List Char)
  | [], _ => none
  | _ :: _, [] => none
  | [p], c :: cs => if p = c then some cs else none
  | p :: p2 :: ps, c :: cs => if p = c then dropPat (p2 :: ps) cs else none

def removeAllGo (pat : List Char) : Nat → List Char → List Char
  | 0, _ => []
  | _, [] => []
  | fuel + 1, c :: cs =>
    match dropPat pat (c :: cs) with
    | some rem => removeAllGo pat fuel rem
    | none => c :: removeAllGo pat fuel cs

/-- Python str.replace(sub, empty): removes every nonoverlapping
occurrence of sub, scanning left to right. -/
def removeAll (sub s : String) : String :=
  String.mk (removeAllGo sub.data s.data.length s.data)

def isBraceChar (c : Char) : Bool := c = '{' ∨ c = '}'

/-- Python s.strip of the two brace characters from both ends. -/
def stripBraces (s : String) : String :=
  String.mk ((s.data.dropWhile isBraceChar).reverse.dropWhile isBraceChar).reverse

def isHexDigitChar (c : Char) : Bool :=
  c.isDigit ∨ ('a' ≤ c ∧ c ≤ 'f') ∨ ('A' ≤ c ∧ c ≤ 'F')

/-- Python uuid.UUID(hex=s): the urn and uuid markers are removed, braces
stripped from the ends, dashes removed anywhere, and the remainder must
be exactly 32 hexadecimal digits.  The canonical result is kept as the
32 lowercase hex digits. -/
def pyUUID (s : String) : Option String :=
  let h := removeAll "-" (stripBraces (removeAll "uuid:" (removeAll "urn:" s)))
  if h.length = 32 ∧ h.data.all isHexDigitChar then some (lowerStr h) else none

/-- Python str(binary).lower() for a bool. -/
def pyStrBool (b : Bool) : String :=
  lowerStr (if b then "True" else "False")

/-! ## Error model

pydantic v1 accumulates one error item per invalid field into a single
ValidationError; XMLBaseModel.parse_raw catches that ValidationError (a
ValueError subclass), together with TypeError, UnicodeDecodeError and
ExpatError, and raises a fresh ValidationError with one ErrorWrapper at
loc __obj__ whose wrapped exception is the original one. -/

mutual

inductive PyErr where
  | validationError (items : List ErrItem)
  | expatError (msg : String)
  | uncaughtExc (cls : String) (msg : String)

inductive ErrItem where
  | fieldErr (loc : List String) (msg : String)
  | wrapped (loc : List String) (exc : PyErr)

end

/-- Validation outcome channel: either the errors pydantic collected
into one ValidationError, or an exception class that neither the
pydantic validator wrapper (which catches ValueError, TypeError,
AssertionError) nor parse_raw catches, such as KeyError or
AttributeError: that one aborts validation and escapes to the caller
unwrapped. -/
inductive DecodeFail where
  | fieldErrors (items : List ErrItem)
  | uncaught (cls : String) (msg : String)

/-- The Python exception class of a raised error, the thing an except
clause can select on. -/
def excClass : PyErr → String
  | PyErr.validationError _ => "pydantic.error_wrappers.ValidationError"
  | PyErr.expatError _ => "xml.parsers.expat.ExpatError"
  | PyErr.uncaughtExc cls _ => cls

/-- Input to parse_raw at the text layer: either expat accepts the text
and yields an element tree, or it rejects it (unicode decode failure,
unclosed tag, invalid entity reference) with a message. -/
inductive RawInput where
  | malformed (msg : String)
  | wellFormed (doc : XmlNode)

/-- XMLBaseModel.parse_raw with an xml content type: parse the text with
xmltodict, validate with the model, and re-wrap any of the caught
exception classes (including the ValidationError raised by validation
itself) in a fresh ValidationError with a single ErrorWrapper at loc
__obj__ that carries the original exception. -/
def parse_raw {M : Type} (validate : XValue → Except DecodeFail M) (fl : List String) : RawInput → Except PyErr M
  | RawInput.malformed msg =>
      Except.error (PyErr.validationError [ErrItem.wrapped ["__obj__"] (PyErr.expatError msg)])
  | RawInput.wellFormed doc =>
      match validate (xmltodict_parse fl doc) with
      | Except.ok m => Except.ok m
      | Except.error (DecodeFail.fieldErrors errs) =>
          Except.error (PyErr.validationError [ErrItem.wrapped ["__obj__"] (PyErr.validationError errs)])
      | Except.error (DecodeFail.uncaught cls msg) =>
          Except.error (PyErr.uncaughtExc cls msg)

/-! ## Field validation helpers (pydantic v1 semantics) -/

/-- Error-accumulating application: both error lists are kept, in field
declaration order, exactly as pydantic v1 collects per-field errors
before raising a single ValidationError.  An uncaught exception is
raised the moment its field is reached, before later fields run and
regardless of errors already collected, so it dominates. -/
def exA {α β : Type} : Except DecodeFail (α → β) → Except DecodeFail α → Except DecodeFail β
  | Except.ok g, Except.ok a => Except.ok (g a)
  | Except.error (DecodeFail.uncaught cls msg), _ =>
      Except.error (DecodeFail.uncaught cls msg)
  | Except.ok _, Except.error (DecodeFail.uncaught cls msg) =>
      Except.error (DecodeFail.uncaught cls msg)
  | Except.error (DecodeFail.fieldErrors _), Except.error (DecodeFail.uncaught cls msg) =>
      Except.error (DecodeFail.uncaught cls msg)
  | Except.error (DecodeFail.fieldErrors e1), Except.error (DecodeFail.fieldErrors e2) =>
      Except.error (DecodeFail.fieldErrors (e1 ++ e2))
  | Except.error (DecodeFail.fieldErrors e1), Except.ok _ =>
      Except.error (DecodeFail.fieldErrors e1)
  | Except.ok _, Except.error (DecodeFail.fieldErrors e2) =>
      Except.error (DecodeFail.fieldErrors e2)

/-- Prefix a location onto every error of a nested validation. -/
def relocItem (pre : List String) : ErrItem → ErrItem
  | ErrItem.fieldErr loc msg => ErrItem.fieldErr (pre ++ loc) msg
  | ErrItem.wrapped loc exc => ErrItem.wrapped (pre ++ loc) exc

def reloc {α : Type} (pre : List String) : Except DecodeFail α → Except DecodeFail α
  | Except.ok a => Except.ok a
  | Except.error (DecodeFail.fieldErrors es) =>
      Except.error (DecodeFail.fieldErrors (es.map (relocItem pre)))
  | Except.error (DecodeFail.uncaught cls msg) =>
      Except.error (DecodeFail.uncaught cls msg)

def reqStr (ps : List (String × XValue)) (fname : String) : Except DecodeFail String :=
  match lookupX ps fname with
  | none => Except.error (DecodeFail.fieldErrors [ErrItem.fieldErr [fname] "field required"])
  | some XValue.null => Except.error (DecodeFail.fieldErrors [ErrItem.fieldErr [fname] "none is not an allowed value"])
  | some (XValue.str s) => Except.ok s
  | some _ => Except.error (DecodeFail.fieldErrors [ErrItem.fieldErr [fname] "str type expected"])

def optStr (ps : List (String × XValue)) (fname : String) : Except DecodeFail (Option String) :=
  match lookupX ps fname with
  | none => Except.ok none
  | some XValue.null => Except.ok none
  | some (XValue.str s) => Except.ok (some s)
  | some _ => Except.error (DecodeFail.fieldErrors [ErrItem.fieldErr [fname] "str type expected"])

def reqInt (ps : List (String × XValue)) (fname : String) : Except DecodeFail Int :=
  match lookupX ps fname with
  | none => Except.error (DecodeFail.fieldErrors [ErrItem.fieldErr [fname] "field required"])
  | some XValue.null => Except.error (DecodeFail.fieldErrors [ErrItem.fieldErr [fname] "none is not an allowed value"])
  | some (XValue.str s) =>
      match pyInt s with
      | some n => Except.ok n
      | none => Except.error (DecodeFail.fieldErrors [ErrItem.fieldErr [fname] "value is not a valid integer"])
  | some _ => Except.error (DecodeFail.fieldErrors [ErrItem.fieldErr [fname] "value is not a valid integer"])

def reqBool (ps : List (String × XValue)) (fname : String) : Except DecodeFail Bool :=
  match lookupX ps fname with
  | none => Except.error (DecodeFail.fieldErrors [ErrItem.fieldErr [fname] "field required"])
  | some XValue.null => Except.error (DecodeFail.fieldErrors [ErrItem.fieldErr [fname] "none is not an allowed value"])
  | some (XValue.str s) =>
      match pyBool s with
      | some b => Except.ok b
      | none => Except.error (DecodeFail.fieldErrors [ErrItem.fieldErr [fname] "value could not be parsed to a boolean"])
  | some _ => Except.error (DecodeFail.fieldErrors [ErrItem.fieldErr [fname] "value could not be parsed to a boolean"])

def reqUUID (ps : List (String × XValue)) (fname : String) : Except DecodeFail String :=
  match lookupX ps fname with
  | none => Except.error (DecodeFail.fieldErrors [ErrItem.fieldErr [fname] "field required"])
  | some XValue.null => Except.error (DecodeFail.fieldErrors [ErrItem.fieldErr [fname] "none is not an allowed value"])
  | some (XValue.str s) =>
      match pyUUID s with
      | some u => Except.ok u
      | none => Except.error (DecodeFail.fieldErrors [ErrItem.fieldErr [fname] "value is not a valid uuid"])
  | some _ => Except.error (DecodeFail.fieldErrors [ErrItem.fieldErr [fname] "value is not a valid uuid"])

/-! ## The shared hashmap-flatten decoder (models._xml_map_item_to_dict,
models._xml_map_to_dict, models.convert_hashmap) -/

/-- Exceptions the map decoder can raise.  The ValueError with the
maximum-of-2-keys message is the condition the specification calls
MapEncodingError. -/
inductive MapErr where
  | typeErr (msg : String)
  | valueErr (msg : String)
  | keyErr (msg : String)
deriving Repr, DecidableEq

/-- Python hashability of the extracted map key: a dict or list key makes
the final one-pair dict construction raise TypeError. -/
def isHashableKey : XValue → Bool
  | XValue.obj _ => false
  | XValue.list _ => false
  | _ => true

def mkSinglePair (a b : XValue) : Except MapErr (List (XValue × XValue)) :=
  if isHashableKey a then Except.ok [(a, b)]
  else Except.error (MapErr.typeErr "unhashable type")

/-- models._xml_map_item_to_dict: one entry object flattens to at most
one key-value pair.  Zero keys give an empty dict; one key requires
exactly two items below it (key, value); two keys give (first value,
second value); more than two keys raise the ValueError that embodies the
ambiguous-map-encoding failure.  Anything that is not an ordered
dictionary raises TypeError. -/
def xml_map_item_to_dict : XValue → Except MapErr (List (XValue × XValue))
  | XValue.obj ps =>
    if ps.length > 2 then Except.error (MapErr.valueErr "XML map can only contain a maximum of 2 keys")
    else
      match ps with
      | [] => Except.ok []
      | [(_, v0)] =>
        (match v0 with
         | XValue.list [a, b] => mkSinglePair a b
         | XValue.list _ => Except.error (MapErr.valueErr "XML map expected two items exactly under the string key")
         | XValue.str s =>
           (match s.data with
            | [c1, c2] => mkSinglePair (XValue.str (String.mk [c1])) (XValue.str (String.mk [c2]))
            | _ => Except.error (MapErr.valueErr "XML map expected two items exactly under the string key"))
         | XValue.null => Except.error (MapErr.typeErr "object of type NoneType has no len")
         | XValue.obj qs =>
           if qs.length = 2 then Except.error (MapErr.keyErr "0")
           else Except.error (MapErr.valueErr "XML map expected two items exactly under the string key"))
      | (_, a) :: (_, b) :: _ => mkSinglePair a b
  | _ => Except.error (MapErr.typeErr "XML map must be passed as an OrderedDict")

/-- Key equality for the flattened Python dict; only hashable keys reach
it (strings and None). -/
def xKeyEq : XValue → XValue → Bool
  | XValue.str a, XValue.str b => a == b
  | XValue.null, XValue.null => true
  | _, _ => false

/-- Python dict update with one pair: replace the value at an existing
key in place, otherwise append. -/
def updKey (acc : List (XValue × XValue)) (k v : XValue) : List (XValue × XValue) :=
  if acc.any (fun p => xKeyEq p.1 k) then acc.map (fun p => if xKeyEq p.1 k then (p.1, v) else p)
  else acc ++ [(k, v)]

def mapMergeGo (acc : List (XValue × XValue)) : List XValue → Except MapErr (List (XValue × XValue))
  | [] => Except.ok acc
  | it :: rest =>
    match xml_map_item_to_dict it with
    | Except.ok pairs => mapMergeGo (pairs.foldl (fun a p => updKey a p.1 p.2) acc) rest
    | Except.error e => Except.error e

/-- models._xml_map_to_dict: a list of entries is merged into one dict,
a single entry is flattened directly. -/
def xml_map_to_dict : XValue → Except MapErr (List (XValue × XValue))
  | XValue.list items => mapMergeGo [] items
  | v => xml_map_item_to_dict v

/-- Python falsiness of a parsed XML value. -/
def xFalsy : XValue → Bool
  | XValue.null => true
  | XValue.str s => s == ""
  | XValue.obj ps => ps.isEmpty
  | XValue.list xs => xs.isEmpty

def hasSubstrGo (pat : List Char) : List Char → Bool
  | [] => listStartsWith pat []
  | c :: cs => listStartsWith pat (c :: cs) || hasSubstrGo pat cs

/-- Python membership test of the string entry in a string (substring). -/
def hasSubstr (sub s : String) : Bool :=
  hasSubstrGo sub.data s.data

/-- Result of models.convert_hashmap: either a flattened Python dict or
the input passed through unchanged to field validation. -/
inductive HVal where
  | flattened (pairs : List (XValue × XValue))
  | passthrough (v : XValue)

/-- models.convert_hashmap: a falsy value (absent field, None, empty
dict, empty string, empty list) becomes an empty dict; a dict with an
entry key whose value is an ordered dict or a list is flattened; any
other value is returned unchanged.  The Python membership test on
non-dict values is kept: it is a substring test on strings and an
element test on lists, and indexing those raises TypeError. -/
def convert_hashmap : Option XValue → Except MapErr HVal
  | none => Except.ok (HVal.flattened [])
  | some v =>
    if xFalsy v then Except.ok (HVal.flattened [])
    else
      match v with
      | XValue.obj ps =>
        (match lookupX ps "entry" with
         | some (XValue.obj qs) => Except.map HVal.flattened (xml_map_to_dict (XValue.obj qs))
         | some (XValue.list items) => Except.map HVal.flattened (xml_map_to_dict (XValue.list items))
         | some _ => Except.ok (HVal.passthrough (XValue.obj ps))
         | none => Except.ok (HVal.passthrough (XValue.obj ps)))
      | XValue.str s =>
        if hasSubstr "entry" s then Except.error (MapErr.typeErr "string indices must be integers")
        else Except.ok (HVal.passthrough (XValue.str s))
      | XValue.list xs =>
        if xs.any (fun x => match x with | XValue.str t => t == "entry" | _ => false)
        then Except.error (MapErr.typeErr "list indices must be integers")
        else Except.ok (HVal.passthrough (XValue.list xs))
      | XValue.null => Except.ok (HVal.flattened [])

/-- How a map-decoder exception surfaces from a pre-validator: the
ValueError and TypeError branches are caught by the pydantic validator
wrapper and become this field's error; KeyError is not in the caught set
and escapes uncaught. -/
def mapErrToField (fname : String) : MapErr → DecodeFail
  | MapErr.typeErr m => DecodeFail.fieldErrors [ErrItem.fieldErr [fname] m]
  | MapErr.valueErr m => DecodeFail.fieldErrors [ErrItem.fieldErr [fname] m]
  | MapErr.keyErr m => DecodeFail.uncaught "KeyError" m

/-! ## MirthDatetime (models.MirthDatetime.validate)

The Python code extracts the time key, rejects a falsy or missing value,
and converts int(timestamp) / 1000 with datetime.fromtimestamp.  The
absolute instant is kept here as the epoch millisecond count: for the
13-digit epoch values of this wire format the float division and the
microsecond rounding inside fromtimestamp reproduce the millisecond
exactly, so the embedding carries the integer through undivided. -/
def mirthDatetime_validate : XValue → Except String Int
  | XValue.obj ps =>
    (match lookupX ps "time" with
     | none => Except.error "No time attribute found in input"
     | some tv =>
       if xFalsy tv then Except.error "No time attribute found in input"
       else
         match tv with
         | XValue.str s =>
           (match pyInt s with
            | some n => Except.ok n
            | none => Except.error "invalid literal for int with base 10")
         | XValue.list _ => Except.error "int argument must be a string or a number"
         | XValue.obj _ => Except.error "int argument must be a string or a number"
         | XValue.null => Except.error "No time attribute found in input")
  | _ => Except.error "value has no attribute get"

/-- Gregorian calendar date from a day count since 1970-01-01, for
stating which absolute instant an epoch value denotes. -/
def civilFromDays (days : Nat) : Nat × Nat × Nat :=
  let z := days + 719468
  let era := z / 146097
  let doe := z % 146097
  let yoe := (doe - doe / 1460 + doe / 36524 - doe / 146097) / 365
  let y := yoe + era * 400
  let doy := doe - (365 * yoe + yoe / 4 - yoe / 100)
  let mp := (5 * doy + 2) / 153
  let d := doy - (153 * mp + 2) / 5 + 1
  let m := if mp < 10 then mp + 3 else mp - 9
  (if m ≤ 2 then y + 1 else y, m, d)

/-- The UTC calendar reading (year, month, day, hour, minute, second,
millisecond) of an epoch millisecond count. -/
def msToCivil (ms : Nat) : Nat × Nat × Nat × Nat × Nat × Nat × Nat :=
  let s := ms / 1000
  let ymd := civilFromDays (s / 86400)
  (ymd.1, ymd.2.1, ymd.2.2, s % 86400 / 3600, s % 3600 / 60, s % 60, ms % 1000)

/-! ## XMLBaseModel.strip_xml_root and the typed models -/

/-- models.XMLBaseModel.strip_xml_root: when the model declares a root
element name and the parsed dictionary contains that key, validation
continues on the child value; otherwise the value is kept as is. -/
def strip_xml_root (root : String) : XValue → XValue
  | XValue.obj ps =>
    if root ≠ "" then
      match lookupX ps root with
      | some child => child
      | none => XValue.obj ps
    else XValue.obj ps
  | other => other

structure ChannelModel where
  id : String
  name : String
  description : Option String
  revision : String
deriving Repr, DecidableEq

/-- Field validation of ChannelModel in declaration order, accumulating
every field error as pydantic v1 does. -/
def channelModelFields : XValue → Except DecodeFail ChannelModel
  | XValue.obj ps =>
    exA (exA (exA (exA (Except.ok ChannelModel.mk)
      (reqUUID ps "id")) (reqStr ps "name")) (optStr ps "description")) (reqStr ps "revision")
  | _ => Except.error (DecodeFail.fieldErrors [ErrItem.fieldErr ["__root__"] "ChannelModel expected dict not value"])

def validateChannelModel (v : XValue) : Except DecodeFail ChannelModel :=
  channelModelFields (strip_xml_root "channel" v)

structure ChannelList where
  channel : List ChannelModel
deriving Repr, DecidableEq

def channelItemsGo (idx : Nat) : List XValue → Except DecodeFail (List ChannelModel)
  | [] => Except.ok []
  | v :: rest =>
    exA (Except.map List.cons (reloc ["channel", Nat.repr idx] (validateChannelModel v)))
      (channelItemsGo (idx + 1) rest)

/-- The channel field of ChannelList is List typed: pydantic v1 accepts
only an actual sequence here, a bare dictionary is not a valid list. -/
def channelListFields : XValue → Except DecodeFail ChannelList
  | XValue.obj ps =>
    (match lookupX ps "channel" with
     | none => Except.error (DecodeFail.fieldErrors [ErrItem.fieldErr ["channel"] "field required"])
     | some XValue.null => Except.error (DecodeFail.fieldErrors [ErrItem.fieldErr ["channel"] "none is not an allowed value"])
     | some (XValue.list xs) => Except.map ChannelList.mk (channelItemsGo 0 xs)
     | some _ => Except.error (DecodeFail.fieldErrors [ErrItem.fieldErr ["channel"] "value is not a valid list"]))
  | _ => Except.error (DecodeFail.fieldErrors [ErrItem.fieldErr ["__root__"] "ChannelList expected dict not value"])

def validateChannelList (v : XValue) : Except DecodeFail ChannelList :=
  channelListFields (strip_xml_root "list" v)

structure ConnectorMessageData where
  channel_id : String
  content : Option String
  content_type : String
  data_type : Option String
  encrypted : Bool
  message_id : String
  message_data_id : Option String
deriving Repr, DecidableEq

/-- ConnectorMessageData is a MirthBaseModel: no root element to strip,
camelCase aliases only. -/
def validateConnectorMessageData : XValue → Except DecodeFail ConnectorMessageData
  | XValue.obj ps =>
    exA (exA (exA (exA (exA (exA (exA (Except.ok ConnectorMessageData.mk)
      (reqUUID ps "channelId"))
      (optStr ps "content"))
      (reqStr ps "contentType"))
      (optStr ps "dataType"))
      (reqBool ps "encrypted"))
      (reqStr ps "messageId"))
      (optStr ps "messageDataId")
  | _ => Except.error (DecodeFail.fieldErrors [ErrItem.fieldErr ["__root__"] "ConnectorMessageData expected dict not value"])

/-- An optional nested-model field (raw, encoded, sent, response):
absent or None decodes to the explicit absent state, a dictionary is
validated as the nested model with relocated error paths. -/
def optData (ps : List (String × XValue)) (fname : String) : Except DecodeFail (Option ConnectorMessageData) :=
  match lookupX ps fname with
  | none => Except.ok none
  | some XValue.null => Except.ok none
  | some (XValue.obj qs) => Except.map some (reloc [fname] (validateConnectorMessageData (XValue.obj qs)))
  | some _ => Except.error (DecodeFail.fieldErrors [ErrItem.fieldErr [fname] "value is not a valid dict"])

/-- A required MirthDatetime field: the None check precedes the custom
type validator, which then runs MirthDatetime.validate.  Calling get on
a non-mapping value raises AttributeError, which neither pydantic nor
parse_raw catches, so it escapes uncaught. -/
def reqMirthDatetime (ps : List (String × XValue)) (fname : String) : Except DecodeFail Int :=
  match lookupX ps fname with
  | none => Except.error (DecodeFail.fieldErrors [ErrItem.fieldErr [fname] "field required"])
  | some XValue.null =>
      Except.error (DecodeFail.fieldErrors [ErrItem.fieldErr [fname] "none is not an allowed value"])
  | some (XValue.obj qs) =>
      (match mirthDatetime_validate (XValue.obj qs) with
       | Except.ok n => Except.ok n
       | Except.error m => Except.error (DecodeFail.fieldErrors [ErrItem.fieldErr [fname] m]))
  | some _ =>
      Except.error (DecodeFail.uncaught "AttributeError" "object has no attribute get")

/-- The rendering of a dict key inside a pydantic error location: value
errors of a dict-typed field are located at (field, key). -/
def keyLocStr : XValue → String
  | XValue.str s => s
  | XValue.null => "None"
  | _ => ""

/-- Validation of the flattened pairs of a Dict[str, Optional[str]]
field, accumulating errors per entry: key errors at (field, __key__),
value errors at (field, key). -/
def strOptPairsGo (fname : String) : List (XValue × XValue) → Except DecodeFail (List (String × Option String))
  | [] => Except.ok []
  | (k, v) :: rest =>
    let keyRes : Except DecodeFail String :=
      match k with
      | XValue.str s => Except.ok s
      | XValue.null => Except.error (DecodeFail.fieldErrors [ErrItem.fieldErr [fname, "__key__"] "none is not an allowed value"])
      | _ => Except.error (DecodeFail.fieldErrors [ErrItem.fieldErr [fname, "__key__"] "str type expected"])
    let valRes : Except DecodeFail (Option String) :=
      match v with
      | XValue.null => Except.ok none
      | XValue.str s => Except.ok (some s)
      | _ => Except.error (DecodeFail.fieldErrors [ErrItem.fieldErr [fname, keyLocStr k] "str type expected"])
    exA (exA (exA (Except.ok (fun kk vv r => (kk, vv) :: r)) keyRes) valRes) (strOptPairsGo fname rest)

structure ConnectorMessageModel where
  chain_id : Int
  order_id : Int
  server_id : String
  channel_id : String
  status : Option String
  received_date : Int
  channel_name : String
  connector_name : String
  message_id : String
  error_code : Int
  send_attempts : Int
  raw : Option ConnectorMessageData
  encoded : Option ConnectorMessageData
  sent : Option ConnectorMessageData
  response : Option ConnectorMessageData
  meta_data_id : Int
  meta_data_map : List (String × Option String)
deriving Repr, DecidableEq

/-- The metaDataMap field: the pre-validator convert_hashmap runs before
anything else (so a None value flattens to an empty dict rather than
failing), a raised map exception becomes this field's error, and the
result must then be dict shaped. -/
def metaDataMapField (ps : List (String × XValue)) : Except DecodeFail (List (String × Option String)) :=
  match lookupX ps "metaDataMap" with
  | none => Except.error (DecodeFail.fieldErrors [ErrItem.fieldErr ["metaDataMap"] "field required"])
  | some v =>
    match convert_hashmap (some v) with
    | Except.error me => Except.error (mapErrToField "metaDataMap" me)
    | Except.ok (HVal.flattened pairs) => strOptPairsGo "metaDataMap" pairs
    | Except.ok (HVal.passthrough w) =>
      match w with
      | XValue.obj qs => strOptPairsGo "metaDataMap" (qs.map (fun p => (XValue.str p.1, p.2)))
      | _ => Except.error (DecodeFail.fieldErrors [ErrItem.fieldErr ["metaDataMap"] "value is not a valid dict"])

/-- models.ConnectorMessageModel: root element connectorMessage, fields
validated in declaration order with error accumulation. -/
def connectorMessageFields : XValue → Except DecodeFail ConnectorMessageModel
  | XValue.obj ps =>
    exA (exA (exA (exA (exA (exA (exA (exA (exA (exA (exA (exA (exA (exA (exA (exA (exA
      (Except.ok ConnectorMessageModel.mk)
      (reqInt ps "chainId"))
      (reqInt ps "orderId"))
      (reqUUID ps "serverId"))
      (reqStr ps "channelId"))
      (optStr ps "status"))
      (reqMirthDatetime ps "receivedDate"))
      (reqStr ps "channelName"))
      (reqStr ps "connectorName"))
      (reqStr ps "messageId"))
      (reqInt ps "errorCode"))
      (reqInt ps "sendAttempts"))
      (optData ps "raw"))
      (optData ps "encoded"))
      (optData ps "sent"))
      (optData ps "response"))
      (reqInt ps "metaDataId"))
      (metaDataMapField ps)
  | _ => Except.error (DecodeFail.fieldErrors [ErrItem.fieldErr ["__root__"] "ConnectorMessageModel expected dict not value"])

def validateConnectorMessageModel (v : XValue) : Except DecodeFail ConnectorMessageModel :=
  connectorMessageFields (strip_xml_root "connectorMessage" v)

/-- Validation of the flattened pairs of the Dict[int,
ConnectorMessageModel] field: string keys are coerced with the Python
int conversion, values are validated as connector messages with
relocated error paths. -/
def cmPairsGo (fname : String) : List (XValue × XValue) → Except DecodeFail (List (Int × ConnectorMessageModel))
  | [] => Except.ok []
  | (k, v) :: rest =>
    let keyRes : Except DecodeFail Int :=
      match k with
      | XValue.str s =>
        (match pyInt s with
         | some n => Except.ok n
         | none => Except.error (DecodeFail.fieldErrors [ErrItem.fieldErr [fname, "__key__"] "value is not a valid integer"]))
      | XValue.null => Except.error (DecodeFail.fieldErrors [ErrItem.fieldErr [fname, "__key__"] "none is not an allowed value"])
      | _ => Except.error (DecodeFail.fieldErrors [ErrItem.fieldErr [fname, "__key__"] "value is not a valid integer"])
    let valRes : Except DecodeFail ConnectorMessageModel :=
      reloc [fname, keyLocStr k] (validateConnectorMessageModel v)
    exA (exA (exA (Except.ok (fun kk vv r => (kk, vv) :: r)) keyRes) valRes) (cmPairsGo fname rest)

/-- The connectorMessages field of ChannelMessageModel: the pre-validator
convert_hashmap flattens the entry wrapper before the Dict[int,
ConnectorMessageModel] validation. -/
def connectorMessagesField (ps : List (String × XValue)) : Except DecodeFail (List (Int × ConnectorMessageModel)) :=
  match lookupX ps "connectorMessages" with
  | none => Except.error (DecodeFail.fieldErrors [ErrItem.fieldErr ["connectorMessages"] "field required"])
  | some v =>
    match convert_hashmap (some v) with
    | Except.error me => Except.error (mapErrToField "connectorMessages" me)
    | Except.ok (HVal.flattened pairs) => cmPairsGo "connectorMessages" pairs
    | Except.ok (HVal.passthrough w) =>
      match w with
      | XValue.obj qs => cmPairsGo "connectorMessages" (qs.map (fun p => (XValue.str p.1, p.2)))
      | _ => Except.error (DecodeFail.fieldErrors [ErrItem.fieldErr ["connectorMessages"] "value is not a valid dict"])

structure ChannelMessageModel where
  message_id : Int
  server_id : String
  channel_id : String
  processed : Bool
  received_date : Int
  connector_messages : List (Int × ConnectorMessageModel)
deriving Repr, DecidableEq

/-- models.ChannelMessageModel: root element message. -/
def channelMessageFields : XValue → Except DecodeFail ChannelMessageModel
  | XValue.obj ps =>
    exA (exA (exA (exA (exA (exA
      (Except.ok ChannelMessageModel.mk)
      (reqInt ps "messageId"))
      (reqUUID ps "serverId"))
      (reqUUID ps "channelId"))
      (reqBool ps "processed"))
      (reqMirthDatetime ps "receivedDate"))
      (connectorMessagesField ps)
  | _ => Except.error (DecodeFail.fieldErrors [ErrItem.fieldErr ["__root__"] "ChannelMessageModel expected dict not value"])

def validateChannelMessageModel (v : XValue) : Except DecodeFail ChannelMessageModel :=
  channelMessageFields (strip_xml_root "message" v)

/-! ## channels.build_channel_message -/

/-- channels.build_channel_message: a RawMessage envelope with a binary
child whose text is str(binary).lower(), and a rawData child holding the
payload only when raw_data is truthy (present and nonempty). -/
def build_channel_message (raw_data : Option String) (binary : Bool) : XmlNode :=
  let binaryElem := XmlNode.elem "binary" [] [] (some (pyStrBool binary))
  match raw_data with
  | some s =>
    if s ≠ "" then
      XmlNode.elem "com.mirth.connect.donkey.model.message.RawMessage" []
        [binaryElem, XmlNode.elem "rawData" [] [] (some s)] none
    else
      XmlNode.elem "com.mirth.connect.donkey.model.message.RawMessage" [] [binaryElem] none
  | none =>
      XmlNode.elem "com.mirth.connect.donkey.model.message.RawMessage" [] [binaryElem] none

/-- The children of an element carrying a given tag, with their texts:
the observation helpers the outbound-format claims are stated with. -/
def childrenTagged (n : XmlNode) (t : String) : List XmlNode :=
  (childrenOf n).filter (fun c => tagOf c = t)

/-! ## Concrete wire documents used by the claims -/

def channelElem1 : XmlNode :=
  XmlNode.elem "channel" []
    [XmlNode.elem "id" [] [] (some "493d666a-1242-46a2-8425-b061e215884c"),
     XmlNode.elem "name" [] [] (some "Channel 1"),
     XmlNode.elem "description" [] [] (some "Example description."),
     XmlNode.elem "revision" [] [] (some "0")] none

def channelElem2 : XmlNode :=
  XmlNode.elem "channel" []
    [XmlNode.elem "id" [] [] (some "493d666a-1242-46a2-8425-b061e215884d"),
     XmlNode.elem "name" [] [] (some "Channel 2"),
     XmlNode.elem "description" [] [] (some "Example description 2."),
     XmlNode.elem "revision" [] [] (some "0")] none

/-- A channel list response with a single channel element. -/
def singleChannelListDoc : XmlNode := XmlNode.elem "list" [] [channelElem1] none

/-- A channel list response with two channel elements. -/
def doubleChannelListDoc : XmlNode := XmlNode.elem "list" [] [channelElem1, channelElem2] none

def channelRec1 : ChannelModel :=
  { id := "493d666a124246a28425b061e215884c", name := "Channel 1",
    description := some "Example description.", revision := "0" }

def channelRec2 : ChannelModel :=
  { id := "493d666a124246a28425b061e215884d", name := "Channel 2",
    description := some "Example description 2.", revision := "0" }

/-- A well-formed channel document with several invalid fields: a
malformed UUID and two missing required fields. -/
def badChannelDoc : XmlNode :=
  XmlNode.elem "channel" [] [XmlNode.elem "id" [] [] (some "not-a-uuid")] none

/-- A message document whose connectorMessages wrapper holds one bare
entry element with the given key text and connector message subtree. -/
def messageDoc (k : String) (cmNode : XmlNode) : XmlNode :=
  XmlNode.elem "message" []
    [XmlNode.elem "messageId" [] [] (some "1"),
     XmlNode.elem "serverId" [] [] (some "4975776f-deb5-4ac6-ba3c-60b27198983d"),
     XmlNode.elem "channelId" [] [] (some "702dd3c4-4079-4933-8ab2-2a6d5c27e503"),
     XmlNode.elem "processed" [] [] (some "true"),
     XmlNode.elem "receivedDate" []
       [XmlNode.elem "time" [] [] (some "1643708252777"),
        XmlNode.elem "timezone" [] [] (some "UTC")] none,
     XmlNode.elem "connectorMessages" [("class", "linked-hash-map")]
       [XmlNode.elem "entry" [] [XmlNode.elem "long" [] [] (some k), cmNode] none] none] none

/-- A concrete connectorMessage subtree with every required field. -/
def cmNode0 : XmlNode :=
  XmlNode.elem "connectorMessage" []
    [XmlNode.elem "chainId" [] [] (some "1"),
     XmlNode.elem "orderId" [] [] (some "1"),
     XmlNode.elem "serverId" [] [] (some "4975776f-deb5-4ac6-ba3c-60b27198983d"),
     XmlNode.elem "channelId" [] [] (some "702dd3c4-4079-4933-8ab2-2a6d5c27e503"),
     XmlNode.elem "status" [] [] (some "SENT"),
     XmlNode.elem "receivedDate" []
       [XmlNode.elem "time" [] [] (some "1643708252777"),
        XmlNode.elem "timezone" [] [] (some "UTC")] none,
     XmlNode.elem "channelName" [] [] (some "Channel 1"),
     XmlNode.elem "connectorName" [] [] (some "Source"),
     XmlNode.elem "messageId" [] [] (some "1"),
     XmlNode.elem "errorCode" [] [] (some "0"),
     XmlNode.elem "sendAttempts" [] [] (some "0"),
     XmlNode.elem "metaDataId" [] [] (some "1"),
     XmlNode.elem "metaDataMap" [] [] none] none

/-- The validated connector message cmNode0 decodes to. -/
def cmRec0 : ConnectorMessageModel :=
  { chain_id := 1, order_id := 1,
    server_id := "4975776fdeb54ac6ba3c60b27198983d",
    channel_id := "702dd3c4-4079-4933-8ab2-2a6d5c27e503",
    status := some "SENT", received_date := 1643708252777,
    channel_name := "Channel 1", connector_name := "Source",
    message_id := "1", error_code := 0, send_attempts := 0,
    raw := none, encoded := none, sent := none, response := none,
    meta_data_id := 1, meta_data_map := [] }

/-! ## Theorems -/

/-- C1: evaluation of the embedded decoder on a single-channel list
document.  The repository test suite expects a one-element channel list
here, but with the channel tag absent from the force-list set xmltodict
hands the channel field to pydantic as a bare dictionary and the
List[ChannelModel] validation rejects it, so the decode raises instead;
forcing the list, or a two-channel document, decodes as expected. -/
theorem claim_C1 :
  parse_raw validateChannelList [] (RawInput.wellFormed singleChannelListDoc)
    = Except.error (PyErr.validationError [ErrItem.wrapped ["__obj__"]
        (PyErr.validationError [ErrItem.fieldErr ["channel"] "value is not a valid list"])]) ∧
  parse_raw validateChannelList ["channel"] (RawInput.wellFormed singleChannelListDoc)
    = Except.ok (ChannelList.mk [channelRec1]) ∧
  parse_raw validateChannelList [] (RawInput.wellFormed doubleChannelListDoc)
    = Except.ok (ChannelList.mk [channelRec1, channelRec2]) :=
  ⟨rfl, rfl, rfl⟩

/-- C2: the shared hashmap-flatten decoder maps a zero-key entry object
to an empty dict, a single well-formed entry (either the two-tag shape
or the single-string-tag shape) to exactly one pair taking the first
sub-value as key and the second as value, and rejects an entry object
with more than two keys with the maximum-of-2-keys ValueError, also
through convert_hashmap. -/
theorem claim_C2 :
  (xml_map_item_to_dict (XValue.obj []) = Except.ok []) ∧
  (∀ k1 k2 a b, isHashableKey a = true →
    xml_map_item_to_dict (XValue.obj [(k1, a), (k2, b)]) = Except.ok [(a, b)]) ∧
  (∀ k a b, isHashableKey a = true →
    xml_map_item_to_dict (XValue.obj [(k, XValue.list [a, b])]) = Except.ok [(a, b)]) ∧
  (∀ ps, ps.length > 2 → xml_map_item_to_dict (XValue.obj ps)
    = Except.error (MapErr.valueErr "XML map can only contain a maximum of 2 keys")) ∧
  (∀ ps, ps.length > 2 → convert_hashmap (some (XValue.obj [("entry", XValue.obj ps)]))
    = Except.error (MapErr.valueErr "XML map can only contain a maximum of 2 keys")) := by
  have hbig : ∀ ps : List (String × XValue), ps.length > 2 → xml_map_item_to_dict (XValue.obj ps)
      = Except.error (MapErr.valueErr "XML map can only contain a maximum of 2 keys") := by
    intro ps h
    simp [xml_map_item_to_dict, h]
  refine ⟨rfl, ?_, ?_, hbig, ?_⟩
  · intro k1 k2 a b ha
    simp [xml_map_item_to_dict, mkSinglePair, ha]
  · intro k a b ha
    simp [xml_map_item_to_dict, mkSinglePair, ha]
  · intro ps h
    simp [convert_hashmap, xFalsy, lookupX, xml_map_to_dict, hbig ps h, Except.map]

theorem claim_C2_witness :
  xml_map_item_to_dict (XValue.obj [("string", XValue.str "k"), ("int", XValue.str "v")])
    = Except.ok [(XValue.str "k", XValue.str "v")] ∧
  xml_map_item_to_dict (XValue.obj [("s", XValue.list [XValue.str "k", XValue.str "v"])])
    = Except.ok [(XValue.str "k", XValue.str "v")] ∧
  xml_map_item_to_dict (XValue.obj [("a", XValue.null), ("b", XValue.null), ("c", XValue.null)])
    = Except.error (MapErr.valueErr "XML map can only contain a maximum of 2 keys") :=
  ⟨claim_C2.2.1 "string" "int" (XValue.str "k") (XValue.str "v") rfl,
   claim_C2.2.2.1 "s" (XValue.str "k") (XValue.str "v") rfl,
   claim_C2.2.2.2.1 [("a", XValue.null), ("b", XValue.null), ("c", XValue.null)] (by decide)⟩

/-- C3 counterexample: the decoder maps the time value 1643709452777 to
the absolute instant 2022-02-01T09:57:32.777Z, not to the
2022-02-01T09:37:32.777Z the claim states; the two instants differ by
twenty minutes. -/
theorem claim_C3_counterexample :
  mirthDatetime_validate (XValue.obj [("time", XValue.str "1643709452777"), ("timezone", XValue.str "UTC")])
    = Except.ok 1643709452777 ∧
  msToCivil 1643709452777 = (2022, 2, 1, 9, 57, 32, 777) ∧
  msToCivil 1643709452777 ≠ (2022, 2, 1, 9, 37, 32, 777) :=
  ⟨rfl, rfl, by decide⟩

/-- C3 (amended): the datetime-from-epoch decoder maps the input with
time 1643709452777 to exactly the absolute instant
2022-02-01T09:57:32.777Z with the millisecond preserved, whatever the
timezone value is; it fails whenever the time key is missing, and
whenever the time value is a string that is not numeric. -/
theorem claim_C3 :
  (∀ tzv, mirthDatetime_validate (XValue.obj [("time", XValue.str "1643709452777"), ("timezone", tzv)])
    = Except.ok 1643709452777) ∧
  msToCivil 1643709452777 = (2022, 2, 1, 9, 57, 32, 777) ∧
  (∀ ps, lookupX ps "time" = none →
    mirthDatetime_validate (XValue.obj ps) = Except.error "No time attribute found in input") ∧
  (∀ ps s, lookupX ps "time" = some (XValue.str s) → pyInt s = none →
    ∃ msg, mirthDatetime_validate (XValue.obj ps) = Except.error msg) := by
  refine ⟨fun _ => rfl, rfl, ?_, ?_⟩
  · intro ps h
    simp [mirthDatetime_validate, h]
  · intro ps s h hn
    by_cases hs : s = ""
    · exact ⟨"No time attribute found in input", by simp [mirthDatetime_validate, h, hs, xFalsy]⟩
    · exact ⟨"invalid literal for int with base 10", by simp [mirthDatetime_validate, h, hs, xFalsy, hn]⟩

theorem claim_C3_witness :
  mirthDatetime_validate (XValue.obj [("time", XValue.str "1643709452777"), ("timezone", XValue.str "UTC")])
    = Except.ok 1643709452777 ∧
  mirthDatetime_validate (XValue.obj [("timezone", XValue.str "UTC")])
    = Except.error "No time attribute found in input" ∧
  (∃ msg, mirthDatetime_validate (XValue.obj [("time", XValue.str "not-a-number")]) = Except.error msg) :=
  ⟨claim_C3.1 (XValue.str "UTC"),
   claim_C3.2.2.1 [("timezone", XValue.str "UTC")] rfl,
   claim_C3.2.2.2 [("time", XValue.str "not-a-number")] "not-a-number" rfl rfl⟩

/-- C4: when the declared root element name is present as the sole
top-level key, strip_xml_root unwraps it and the model validates only
the child value; when the declared root is absent, the mapping is
validated as is.  Shown both for strip_xml_root in general and through
validateChannelModel with its declared root channel. -/
theorem claim_C4 (root : String) (v : XValue) (ps : List (String × XValue))
    (hne : root ≠ "") (habs : lookupX ps root = none) :
  strip_xml_root root (XValue.obj [(root, v)]) = v ∧
  strip_xml_root root (XValue.obj ps) = XValue.obj ps ∧
  validateChannelModel (XValue.obj [("channel", v)]) = channelModelFields v ∧
  (lookupX ps "channel" = none →
    validateChannelModel (XValue.obj ps) = channelModelFields (XValue.obj ps)) := by
  refine ⟨?_, ?_, ?_, ?_⟩
  · simp [strip_xml_root, lookupX, hne]
  · simp [strip_xml_root, habs, hne]
  · simp [validateChannelModel, strip_xml_root, lookupX]
  · intro h
    simp [validateChannelModel, strip_xml_root, h]

theorem claim_C4_witness :
  strip_xml_root "list" (XValue.obj [("list", XValue.null)]) = XValue.null ∧
  strip_xml_root "list" (XValue.obj [("x", XValue.null)]) = XValue.obj [("x", XValue.null)] :=
  ⟨(claim_C4 "list" XValue.null [("x", XValue.null)] (by decide) rfl).1,
   (claim_C4 "list" XValue.null [("x", XValue.null)] (by decide) rfl).2.1⟩

/-- C5 counterexample: a malformed XML input and a structurally invalid
document both surface as the same exception class, the pydantic
ValidationError; the malformed-XML condition is not a distinct,
separately catchable exception class. -/
theorem claim_C5_counterexample :
  parse_raw validateChannelModel [] (RawInput.malformed "not well-formed (invalid token)")
    = Except.error (PyErr.validationError [ErrItem.wrapped ["__obj__"]
        (PyErr.expatError "not well-formed (invalid token)")]) ∧
  parse_raw validateChannelModel [] (RawInput.wellFormed badChannelDoc)
    = Except.error (PyErr.validationError [ErrItem.wrapped ["__obj__"] (PyErr.validationError
        [ErrItem.fieldErr ["id"] "value is not a valid uuid",
         ErrItem.fieldErr ["name"] "field required",
         ErrItem.fieldErr ["revision"] "field required"])]) ∧
  excClass (PyErr.validationError [ErrItem.wrapped ["__obj__"]
      (PyErr.expatError "not well-formed (invalid token)")])
    = excClass (PyErr.validationError [ErrItem.wrapped ["__obj__"] (PyErr.validationError
        [ErrItem.fieldErr ["id"] "value is not a valid uuid",
         ErrItem.fieldErr ["name"] "field required",
         ErrItem.fieldErr ["revision"] "field required"])]) :=
  ⟨rfl, rfl, rfl⟩

/-- C5 (amended): every malformed XML input makes parse_raw fail with a
pydantic ValidationError that wraps the original parser exception at loc
__obj__, carrying the original exception context; the raised class is
the same ValidationError class used for schema validation failures, so
the condition is catchable but only distinguishable by its payload. -/
theorem claim_C5 (msg : String) :
  parse_raw validateChannelModel [] (RawInput.malformed msg)
    = Except.error (PyErr.validationError [ErrItem.wrapped ["__obj__"] (PyErr.expatError msg)]) ∧
  excClass (PyErr.validationError [ErrItem.wrapped ["__obj__"] (PyErr.expatError msg)])
    = "pydantic.error_wrappers.ValidationError" :=
  ⟨rfl, rfl⟩

/-- C8: a well-formed channel document with a malformed UUID and two
missing required fields produces exactly one failure that enumerates all
three field errors as path and reason pairs, in field order, never just
the first; through parse_raw the single raised ValidationError carries
the full list. -/
theorem claim_C8 (ps : List (String × XValue)) (s : String)
    (hid : lookupX ps "id" = some (XValue.str s)) (hbad : pyUUID s = none)
    (hname : lookupX ps "name" = none) (hdesc : lookupX ps "description" = none)
    (hrev : lookupX ps "revision" = none) (hroot : lookupX ps "channel" = none) :
  validateChannelModel (XValue.obj ps) = Except.error (DecodeFail.fieldErrors
    [ErrItem.fieldErr ["id"] "value is not a valid uuid",
     ErrItem.fieldErr ["name"] "field required",
     ErrItem.fieldErr ["revision"] "field required"]) ∧
  parse_raw validateChannelModel [] (RawInput.wellFormed badChannelDoc)
    = Except.error (PyErr.validationError [ErrItem.wrapped ["__obj__"] (PyErr.validationError
        [ErrItem.fieldErr ["id"] "value is not a valid uuid",
         ErrItem.fieldErr ["name"] "field required",
         ErrItem.fieldErr ["revision"] "field required"])]) := by
  refine ⟨?_, rfl⟩
  simp [validateChannelModel, strip_xml_root, hroot, channelModelFields,
    reqUUID, reqStr, optStr, hid, hbad, hname, hdesc, hrev, exA]

theorem claim_C8_witness :
  validateChannelModel (XValue.obj [("id", XValue.str "not-a-uuid")])
    = Except.error (DecodeFail.fieldErrors
    [ErrItem.fieldErr ["id"] "value is not a valid uuid",
     ErrItem.fieldErr ["name"] "field required",
     ErrItem.fieldErr ["revision"] "field required"]) :=
  (claim_C8 [("id", XValue.str "not-a-uuid")] "not-a-uuid" rfl rfl rfl rfl rfl rfl).1

/-- C10: convert_hashmap maps a falsy input (absent field, None, empty
dict, empty string, empty list) to an empty dict, and passes a nonempty
dict through unchanged when it has no entry key or when its entry value
is neither an ordered dict nor a list. -/
theorem claim_C10 (v e : XValue) (ps : List (String × XValue)) :
  (convert_hashmap none = Except.ok (HVal.flattened [])) ∧
  (xFalsy v = true → convert_hashmap (some v) = Except.ok (HVal.flattened [])) ∧
  (lookupX ps "entry" = none →
    convert_hashmap (some (XValue.obj ps)) = Except.ok (HVal.flattened []) ∨
    convert_hashmap (some (XValue.obj ps)) = Except.ok (HVal.passthrough (XValue.obj ps))) ∧
  (ps.isEmpty = false → lookupX ps "entry" = none →
    convert_hashmap (some (XValue.obj ps)) = Except.ok (HVal.passthrough (XValue.obj ps))) ∧
  (ps.isEmpty = false → lookupX ps "entry" = some e →
    (∀ qs, e ≠ XValue.obj qs) → (∀ xs, e ≠ XValue.list xs) →
    convert_hashmap (some (XValue.obj ps)) = Except.ok (HVal.passthrough (XValue.obj ps))) := by
  refine ⟨rfl, ?_, ?_, ?_, ?_⟩
  · intro h
    cases v with
    | null => rfl
    | str s => simp_all [convert_hashmap, xFalsy]
    | obj qs => simp_all [convert_hashmap, xFalsy]
    | list xs => simp_all [convert_hashmap, xFalsy]
  · intro h
    by_cases he : ps.isEmpty
    · exact Or.inl (by simp [convert_hashmap, xFalsy, he])
    · exact Or.inr (by simp [convert_hashmap, xFalsy, he, h])
  · intro he h
    simp [convert_hashmap, xFalsy, he, h]
  · intro he h hobj hlist
    cases e with
    | null =>
      simp [convert_hashmap, xFalsy, he, h]
    | str s =>
      simp [convert_hashmap, xFalsy, he, h]
    | obj qs => exact absurd rfl (hobj qs)
    | list xs => exact absurd rfl (hlist xs)

theorem claim_C10_witness :
  convert_hashmap (some (XValue.obj [])) = Except.ok (HVal.flattened []) ∧
  convert_hashmap (some (XValue.obj [("foo", XValue.str "bar")]))
    = Except.ok (HVal.passthrough (XValue.obj [("foo", XValue.str "bar")])) ∧
  convert_hashmap (some (XValue.obj [("entry", XValue.str "x")]))
    = Except.ok (HVal.passthrough (XValue.obj [("entry", XValue.str "x")])) :=
  ⟨(claim_C10 (XValue.obj []) XValue.null []).2.1 rfl,
   (claim_C10 XValue.null XValue.null [("foo", XValue.str "bar")]).2.2.2.1 rfl rfl,
   (claim_C10 XValue.null (XValue.str "x") [("entry", XValue.str "x")]).2.2.2.2 rfl rfl
     (fun _ h => XValue.noConfusion h) (fun _ h => XValue.noConfusion h)⟩

/-- C9: build_channel_message produces a single RawMessage envelope
whose binary child text is the lowercase boolean, and contains a rawData
child holding the payload exactly when raw_data is a nonempty string;
an absent or empty raw_data omits the rawData element entirely. -/
theorem claim_C9 (raw_data : Option String) (binary : Bool) :
  tagOf (build_channel_message raw_data binary)
    = "com.mirth.connect.donkey.model.message.RawMessage" ∧
  (childrenTagged (build_channel_message raw_data binary) "binary").map textOf
    = [some (pyStrBool binary)] ∧
  pyStrBool binary = (if binary then "true" else "false") ∧
  (∀ s, raw_data = some s → s ≠ "" →
    (childrenTagged (build_channel_message raw_data binary) "rawData").map textOf = [some s]) ∧
  ((raw_data = none ∨ raw_data = some "") →
    childrenTagged (build_channel_message raw_data binary) "rawData" = []) := by
  have hb : pyStrBool binary = (if binary then "true" else "false") := by
    cases binary <;> rfl
  cases raw_data with
  | none =>
    refine ⟨rfl, rfl, hb, ?_, fun _ => rfl⟩
    intro s hs
    exact absurd hs (by simp)
  | some s =>
    by_cases hs : s = ""
    · subst hs
      refine ⟨rfl, rfl, hb, ?_, fun _ => rfl⟩
      intro t ht htne
      rw [Option.some.injEq] at ht
      exact absurd ht.symm htne
    · refine ⟨?_, ?_, hb, ?_, ?_⟩
      · simp [build_channel_message, tagOf, hs]
      · simp [build_channel_message, childrenTagged, childrenOf, tagOf, textOf, hs]
      · intro t ht htne
        rw [Option.some.injEq] at ht
        subst ht
        simp [build_channel_message, childrenTagged, childrenOf, tagOf, textOf, hs]
      · intro hcon
        rcases hcon with h | h
        · exact absurd h (by simp)
        · rw [Option.some.injEq] at h
          exact absurd h hs

theorem claim_C9_witness :
  (childrenTagged (build_channel_message (some "payload") true) "rawData").map textOf
    = [some "payload"] ∧
  childrenTagged (build_channel_message none false) "rawData" = [] ∧
  (childrenTagged (build_channel_message none false) "binary").map textOf
    = [some (pyStrBool false)] :=
  ⟨(claim_C9 (some "payload") true).2.2.2.1 "payload" rfl (by decide),
   (claim_C9 none false).2.2.2.2 (Or.inl rfl),
   (claim_C9 none false).2.1⟩

theorem tagOf_elem (t : String) (a : List (String × String)) (c : List XmlNode) (tx : Option String) :
  tagOf (XmlNode.elem t a c tx) = t := rfl

theorem parseElem_eq (fl : List String) (t : String) (a : List (String × String))
    (c : List XmlNode) (tx : Option String) :
  parseElem fl (XmlNode.elem t a c tx) =
    (if c.isEmpty then
      (if a.isEmpty then
        (match stripText tx with
         | none => XValue.null
         | some s => XValue.str s)
      else XValue.obj (attrsToPairs a ++ textPairs (stripText tx)))
    else XValue.obj (parseChildren fl (attrsToPairs a) c ++ textPairs (stripText tx))) := rfl

theorem dropWhile_dropWhile_eq (p : Char → Bool) (l : List Char) :
    (l.dropWhile p).dropWhile p = l.dropWhile p := by
  induction l with
  | nil => rfl
  | cons a l ih =>
    by_cases hp : p a = true
    · simp [List.dropWhile_cons, hp, ih]
    · simp [List.dropWhile_cons, hp]

theorem dropWhile_length_le (p : Char → Bool) (l : List Char) :
    (l.dropWhile p).length ≤ l.length := by
  induction l with
  | nil => simp
  | cons a l ih =>
    by_cases hp : p a = true
    · simp only [List.dropWhile_cons, hp, if_true]
      exact Nat.le_succ_of_le ih
    · simp [List.dropWhile_cons, hp]

theorem dropWhile_cons_eq_self (p : Char → Bool) (a : Char) (l : List Char)
    (h : (a :: l).dropWhile p = a :: l) : p a = false := by
  by_cases hp : p a = true
  · rw [List.dropWhile_cons, if_pos hp] at h
    have hlen := dropWhile_length_le p l
    rw [h] at hlen
    simp only [List.length_cons] at hlen
    omega
  · exact Bool.eq_false_iff.mpr hp

theorem dropWhile_suffix_self (p : Char → Bool) (l : List Char) :
    l.dropWhile p <:+ l := by
  induction l with
  | nil => exact List.suffix_refl _
  | cons a l ih =>
    by_cases hp : p a = true
    · rw [List.dropWhile_cons, if_pos hp]
      exact ih.trans (List.suffix_cons a l)
    · rw [List.dropWhile_cons, if_neg hp]

theorem trimChars_front (l : List Char) :
    (trimChars l).dropWhile pyWhitespace = trimChars l := by
  cases hB : trimChars l with
  | nil => rfl
  | cons c bs =>
    have hpre : trimChars l <+: l.dropWhile pyWhitespace := by
      have hsuf := dropWhile_suffix_self pyWhitespace (l.dropWhile pyWhitespace).reverse
      have hp := List.reverse_prefix.mpr hsuf
      rw [List.reverse_reverse] at hp
      exact hp
    rw [hB] at hpre
    obtain ⟨t, ht⟩ := hpre
    have hfA := dropWhile_dropWhile_eq pyWhitespace l
    rw [← ht] at hfA
    have hc : pyWhitespace c = false := by
      apply dropWhile_cons_eq_self pyWhitespace c (bs ++ t)
      simpa using hfA
    simp [List.dropWhile_cons, hc]

theorem trimChars_idem (l : List Char) : trimChars (trimChars l) = trimChars l :=
  calc trimChars (trimChars l)
      = (((trimChars l).dropWhile pyWhitespace).reverse.dropWhile pyWhitespace).reverse := rfl
    _ = ((trimChars l).reverse.dropWhile pyWhitespace).reverse := by rw [trimChars_front]
    _ = ((((l.dropWhile pyWhitespace).reverse.dropWhile pyWhitespace).reverse.reverse).dropWhile
          pyWhitespace).reverse := rfl
    _ = (((l.dropWhile pyWhitespace).reverse.dropWhile pyWhitespace).dropWhile
          pyWhitespace).reverse := by rw [List.reverse_reverse]
    _ = ((l.dropWhile pyWhitespace).reverse.dropWhile pyWhitespace).reverse := by
          rw [dropWhile_dropWhile_eq]
    _ = trimChars l := rfl

/-- A string that Python int() accepts has nonempty trimmed text, so
xmltodict keeps (the trimmed form of) it, and int() reads the trimmed
form to the same value. -/
theorem pyInt_trim_facts (k : String) (n : Int) (hk : pyInt k = some n) :
    stripText (some k) = some (String.mk (trimChars k.data)) ∧
    pyInt (String.mk (trimChars k.data)) = some n := by
  have hne : trimChars k.data ≠ [] := by
    intro hnil
    unfold pyInt at hk
    rw [hnil] at hk
    simp [pyDigits] at hk
  have hmkne : String.mk (trimChars k.data) ≠ "" := by
    intro hemp
    exact hne (congrArg String.data hemp)
  refine ⟨by simp [stripText, hmkne], ?_⟩
  have hd : (String.mk (trimChars k.data)).data = trimChars k.data := rfl
  unfold pyInt at hk ⊢
  rw [hd, trimChars_idem]
  exact hk

/-- C7: a message document whose connectorMessages wrapper holds one
bare entry element (not a list of entries) decodes to a
connector-message mapping with exactly one pair, keyed by the integer
read from the entry key element, with the connectorMessage child of the
entry as its value. -/
theorem claim_C7 (k : String) (n : Int) (cmNode : XmlNode) (m : ConnectorMessageModel)
    (htag : tagOf cmNode = "connectorMessage")
    (hk : pyInt k = some n)
    (hm : validateConnectorMessageModel (parseElem [] cmNode) = Except.ok m) :
  parse_raw validateChannelMessageModel [] (RawInput.wellFormed (messageDoc k cmNode))
    = Except.ok
      { message_id := 1, server_id := "4975776fdeb54ac6ba3c60b27198983d",
        channel_id := "702dd3c4407949338ab22a6d5c27e503", processed := true,
        received_date := 1643708252777, connector_messages := [(n, m)] } := by
  have ha : "@" ++ "class" = "@class" := rfl
  obtain ⟨hstk, hk2⟩ := pyInt_trim_facts k n hk
  have ht1 : stripText (some "1") = some "1" := rfl
  have ht2 : stripText (some "4975776f-deb5-4ac6-ba3c-60b27198983d")
    = some "4975776f-deb5-4ac6-ba3c-60b27198983d" := rfl
  have ht3 : stripText (some "702dd3c4-4079-4933-8ab2-2a6d5c27e503")
    = some "702dd3c4-4079-4933-8ab2-2a6d5c27e503" := rfl
  have ht4 : stripText (some "true") = some "true" := rfl
  have ht5 : stripText (some "1643708252777") = some "1643708252777" := rfl
  have ht6 : stripText (some "UTC") = some "UTC" := rfl
  have ht0 : stripText none = none := rfl
  have hparse : xmltodict_parse [] (messageDoc k cmNode) =
      XValue.obj [("message", XValue.obj
        [("messageId", XValue.str "1"),
         ("serverId", XValue.str "4975776f-deb5-4ac6-ba3c-60b27198983d"),
         ("channelId", XValue.str "702dd3c4-4079-4933-8ab2-2a6d5c27e503"),
         ("processed", XValue.str "true"),
         ("receivedDate", XValue.obj [("time", XValue.str "1643708252777"),
                                      ("timezone", XValue.str "UTC")]),
         ("connectorMessages", XValue.obj
           [("@class", XValue.str "linked-hash-map"),
            ("entry", XValue.obj [("long", XValue.str (String.mk (trimChars k.data))),
                                  ("connectorMessage", parseElem [] cmNode)])])])] := by
    simp [xmltodict_parse, messageDoc, parseElem_eq, parseChildren, pushData, lookupX, setX,
      attrsToPairs, textPairs, tagOf_elem, htag, ha, hstk, ht0, ht1, ht2, ht3, ht4, ht5, ht6]
  have h1 : pyInt "1" = some 1 := rfl
  have h2 : pyUUID "4975776f-deb5-4ac6-ba3c-60b27198983d"
    = some "4975776fdeb54ac6ba3c60b27198983d" := rfl
  have h3 : pyUUID "702dd3c4-4079-4933-8ab2-2a6d5c27e503"
    = some "702dd3c4407949338ab22a6d5c27e503" := rfl
  have h4 : pyBool "true" = some true := rfl
  have h5 : mirthDatetime_validate (XValue.obj [("time", XValue.str "1643708252777"),
      ("timezone", XValue.str "UTC")]) = Except.ok 1643708252777 := rfl
  have hval : validateChannelMessageModel (XValue.obj [("message", XValue.obj
        [("messageId", XValue.str "1"),
         ("serverId", XValue.str "4975776f-deb5-4ac6-ba3c-60b27198983d"),
         ("channelId", XValue.str "702dd3c4-4079-4933-8ab2-2a6d5c27e503"),
         ("processed", XValue.str "true"),
         ("receivedDate", XValue.obj [("time", XValue.str "1643708252777"),
                                      ("timezone", XValue.str "UTC")]),
         ("connectorMessages", XValue.obj
           [("@class", XValue.str "linked-hash-map"),
            ("entry", XValue.obj [("long", XValue.str (String.mk (trimChars k.data))),
                                  ("connectorMessage", parseElem [] cmNode)])])])])
      = Except.ok
      { message_id := 1, server_id := "4975776fdeb54ac6ba3c60b27198983d",
        channel_id := "702dd3c4407949338ab22a6d5c27e503", processed := true,
        received_date := 1643708252777, connector_messages := [(n, m)] } := by
    simp [validateChannelMessageModel, strip_xml_root, lookupX, channelMessageFields,
      reqInt, reqUUID, reqBool, reqMirthDatetime, connectorMessagesField,
      convert_hashmap, xFalsy, xml_map_to_dict, xml_map_item_to_dict, mkSinglePair,
      isHashableKey, cmPairsGo, reloc, keyLocStr, exA, Except.map,
      h1, h2, h3, h4, h5, hk2, hm]
  simp only [parse_raw, hparse, hval]

theorem claim_C7_witness :
  parse_raw validateChannelMessageModel [] (RawInput.wellFormed (messageDoc "1" cmNode0))
    = Except.ok
      { message_id := 1, server_id := "4975776fdeb54ac6ba3c60b27198983d",
        channel_id := "702dd3c4407949338ab22a6d5c27e503", processed := true,
        received_date := 1643708252777, connector_messages := [(1, cmRec0)] } :=
  claim_C7 "1" 1 cmNode0 cmRec0 rfl rfl rfl

theorem tagOf_unparseOne (k : String) (v : XValue) : tagOf (unparseOne k v) = k := by
  cases v <;> rfl

theorem lookupX_append_of_none (acc rest : List (String × XValue)) (key : String)
    (h : lookupX acc key = none) : lookupX (acc ++ rest) key = lookupX rest key := by
  induction acc with
  | nil => rfl
  | cons p acc ih =>
    obtain ⟨k, v⟩ := p
    by_cases hk : k = key
    · simp [lookupX, hk] at h
    · simp only [lookupX, hk, if_false, List.cons_append] at h ⊢
      exact ih h

theorem lookupX_append_single (acc : List (String × XValue)) (key : String) (v : XValue)
    (h : lookupX acc key = none) : lookupX (acc ++ [(key, v)]) key = some v := by
  rw [lookupX_append_of_none acc _ key h]
  simp [lookupX]

theorem lookupX_append_single_ne (acc : List (String × XValue)) (k2 : String) (v : XValue)
    (key : String) (h : lookupX acc key = none) (hne : k2 ≠ key) :
    lookupX (acc ++ [(k2, v)]) key = none := by
  rw [lookupX_append_of_none acc _ key h]
  simp [lookupX, hne]

theorem lookupX_setX_self (acc : List (String × XValue)) (key : String) (u w : XValue)
    (h : lookupX acc key = some u) : lookupX (setX acc key w) key = some w := by
  induction acc with
  | nil => simp [lookupX] at h
  | cons p acc ih =>
    obtain ⟨k, v⟩ := p
    by_cases hk : k = key
    · simp [setX, lookupX, hk]
    · simp only [lookupX, hk, if_false] at h
      simp only [setX, hk, if_false, lookupX]
      exact ih h

theorem setX_setX (acc : List (String × XValue)) (key : String) (w1 w2 : XValue) :
    setX (setX acc key w1) key w2 = setX acc key w2 := by
  induction acc with
  | nil => rfl
  | cons p acc ih =>
    obtain ⟨k, v⟩ := p
    by_cases hk : k = key
    · simp [setX, hk]
    · simp [setX, hk, ih]

theorem setX_lookup_self (acc : List (String × XValue)) (key : String) (w : XValue)
    (h : lookupX acc key = some w) : setX acc key w = acc := by
  induction acc with
  | nil => rfl
  | cons p acc ih
  =>
    obtain ⟨k, v⟩ := p
    by_cases hk : k = key
    · simp only [lookupX, hk, if_true, Option.some.injEq] at h
      simp [setX, hk, h]
    · simp only [lookupX, hk, if_false] at h
      simp [setX, hk, ih h]

theorem setX_append_of_none (acc rest : List (String × XValue)) (key : String) (w : XValue)
    (h : lookupX acc key = none) : setX (acc ++ rest) key w = acc ++ setX rest key w := by
  induction acc with
  | nil => rfl
  | cons p acc ih =>
    obtain ⟨k, v⟩ := p
    by_cases hk : k = key
    · simp [lookupX, hk] at h
    · simp only [lookupX, hk, if_false] at h
      simp [setX, hk, ih h]

theorem setX_append_single (acc : List (String × XValue)) (key : String) (v w : XValue)
    (h : lookupX acc key = none) : setX (acc ++ [(key, v)]) key w = acc ++ [(key, w)] := by
  rw [setX_append_of_none acc _ key w h]
  simp [setX]

theorem pushData_fresh (acc : List (String × XValue)) (key : String) (v : XValue)
    (h : lookupX acc key = none) : pushData [] acc key v = acc ++ [(key, v)] := by
  simp [pushData, h]

theorem pushData_append_list (acc : List (String × XValue)) (key : String) (xs : List XValue)
    (v : XValue) (h : lookupX acc key = some (XValue.list xs)) :
    pushData [] acc key v = setX acc key (XValue.list (xs ++ [v])) := by
  simp [pushData, h]

theorem pushData_promote (acc : List (String × XValue)) (key : String) (old v : XValue)
    (h : lookupX acc key = some old) (hnl : ∀ xs, old ≠ XValue.list xs) :
    pushData [] acc key v = setX acc key (XValue.list [old, v]) := by
  cases old with
  | list xs => exact absurd rfl (hnl xs)
  | null => simp [pushData, h]
  | str s => simp [pushData, h]
  | obj ps => simp [pushData, h]

theorem parseChildren_append (fl : List String) (acc : List (String × XValue))
    (cs1 cs2 : List XmlNode) :
    parseChildren fl acc (cs1 ++ cs2) = parseChildren fl (parseChildren fl acc cs1) cs2 := by
  induction cs1 generalizing acc with
  | nil => rfl
  | cons c cs ih => simp [parseChildren, ih]

theorem goodVal_not_list (v : XValue) (h : goodVal v = true) : ∀ xs, v ≠ XValue.list xs := by
  cases v <;> simp_all [goodVal]

theorem plainKey_parts (k : String) (h : plainKey k = true) :
    k ≠ "" ∧ k.take 1 ≠ "@" ∧ k ≠ "#text" := by
  simp only [plainKey, Bool.and_eq_true, bne_iff_ne, ne_eq] at h
  exact ⟨h.1.1, h.1.2, h.2⟩

theorem keyNotIn_parts (k : String) (ps : List (String × XValue)) (h : keyNotIn k ps = true) :
    ∀ p ∈ ps, p.1 ≠ k := by
  intro p hp
  simp only [keyNotIn, List.all_eq_true] at h
  simpa using h p hp

theorem unparseAttrs_nil (ps : List (String × XValue)) (h : goodPairs ps = true) :
    unparseAttrs ps = [] := by
  induction ps with
  | nil => rfl
  | cons p rest ih =>
    obtain ⟨k, v⟩ := p
    simp only [goodPairs, Bool.and_eq_true] at h
    have hk := plainKey_parts k h.1.1.1
    simp [unparseAttrs, hk.2.1, ih h.2]

theorem unparseText_none (ps : List (String × XValue)) (h : goodPairs ps = true) :
    unparseText ps = none := by
  induction ps with
  | nil => rfl
  | cons p rest ih =>
    obtain ⟨k, v⟩ := p
    simp only [goodPairs, Bool.and_eq_true] at h
    have hk := plainKey_parts k h.1.1.1
    simp [unparseText, hk.2.2, ih h.2]

theorem unparseKids_cons_nonlist (k : String) (v : XValue) (rest : List (String × XValue))
    (hnl : ∀ xs, v ≠ XValue.list xs) (hk : plainKey k = true) :
    unparseKids ((k, v) :: rest) = unparseOne k v :: unparseKids rest := by
  have h1 := (plainKey_parts k hk).2.1
  have h2 := (plainKey_parts k hk).2.2
  cases v with
  | list xs => exact absurd rfl (hnl xs)
  | null => simp [unparseKids, h1, h2]
  | str s => simp [unparseKids, h1, h2]
  | obj qs => simp [unparseKids, h1, h2]

theorem unparseKids_cons_list (k : String) (xs : List XValue) (rest : List (String × XValue))
    (hk : plainKey k = true) :
    unparseKids ((k, XValue.list xs) :: rest) = unparseItems k xs ++ unparseKids rest := by
  have h1 := (plainKey_parts k hk).2.1
  have h2 := (plainKey_parts k hk).2.2
  simp [unparseKids, h1, h2]

theorem unparseKids_ne_nil (k : String) (v : XValue) (rest : List (String × XValue))
    (h : goodPairs ((k, v) :: rest) = true) :
    (unparseKids ((k, v) :: rest)).isEmpty = false := by
  simp only [goodPairs, Bool.and_eq_true] at h
  have hk := h.1.1.1
  cases v with
  | list xs =>
    rw [unparseKids_cons_list k xs rest hk]
    have hlen : xs.length ≥ 2 := by
      have := h.1.2
      simp only [goodField, Bool.and_eq_true, decide_eq_true_eq] at this
      exact this.1
    cases xs with
    | nil => simp at hlen
    | cons x xrest => simp [unparseItems]
  | null =>
    rw [unparseKids_cons_nonlist k XValue.null rest (fun _ h => XValue.noConfusion h) hk]
    simp
  | str s =>
    rw [unparseKids_cons_nonlist k (XValue.str s) rest (fun _ h => XValue.noConfusion h) hk]
    simp
  | obj qs =>
    rw [unparseKids_cons_nonlist k (XValue.obj qs) rest (fun _ h => XValue.noConfusion h) hk]
    simp

theorem goodField_nonlist (v : XValue) (hnl : ∀ xs, v ≠ XValue.list xs)
    (h : goodField v = true) : goodVal v = true := by
  cases v with
  | list xs => exact absurd rfl (hnl xs)
  | null => rfl
  | str s => simpa [goodField, goodVal] using h
  | obj ps => simpa [goodField, goodVal] using h

mutual

theorem rt_val (r : String) (v : XValue) (h : goodVal v = true) :
    parseElem [] (unparseOne r v) = v := by
  cases v with
  | null => rfl
  | str s =>
    simp only [goodVal, Bool.and_eq_true, bne_iff_ne, ne_eq, beq_iff_eq] at h
    obtain ⟨hs, hst⟩ := h
    have hstx : stripText (some s) = some s := by
      simp [stripText, hst, hs]
    simp [unparseOne, hs, parseElem_eq, hstx]
  | list xs => simp [goodVal] at h
  | obj ps =>
    simp only [goodVal, Bool.and_eq_true, Bool.not_eq_true'] at h
    obtain ⟨hne, hgp⟩ := h
    simp only [unparseOne]
    rw [unparseAttrs_nil ps hgp, unparseText_none ps hgp, parseElem_eq]
    cases ps with
    | nil => simp at hne
    | cons p rest =>
      obtain ⟨k, v0⟩ := p
      have hke : (unparseKids ((k, v0) :: rest)).isEmpty = false :=
        unparseKids_ne_nil k v0 rest hgp
      simp only [hke, Bool.false_eq_true, if_false, attrsToPairs, List.map_nil,
        stripText, textPairs, List.append_nil]
      rw [rt_pairs ((k, v0) :: rest) [] hgp (fun p _ => rfl)]
      rfl

theorem rt_pairs (ps : List (String × XValue)) (acc : List (String × XValue))
    (h : goodPairs ps = true) (hacc : ∀ p ∈ ps, lookupX acc p.1 = none) :
    parseChildren [] acc (unparseKids ps) = acc ++ ps := by
  cases ps with
  | nil => simp [unparseKids, parseChildren]
  | cons p rest =>
    obtain ⟨k, v⟩ := p
    simp only [goodPairs, Bool.and_eq_true] at h
    obtain ⟨⟨⟨hpk, hni⟩, hgf⟩, hgp⟩ := h
    have hlk : lookupX acc k = none := hacc (k, v) (List.mem_cons_self _ _)
    have haccrest : ∀ w : XValue, ∀ p ∈ rest, lookupX (acc ++ [(k, w)]) p.1 = none := by
      intro w p hp
      exact lookupX_append_single_ne acc k w p.1 (hacc p (List.mem_cons_of_mem _ hp))
        (keyNotIn_parts k rest hni p hp).symm
    cases v with
    | list xs =>
      have hxlen : xs.length ≥ 2 := by
        simp only [goodField, Bool.and_eq_true, decide_eq_true_eq] at hgf
        exact hgf.1
      have hxitems : goodItems xs = true := by
        simp only [goodField, Bool.and_eq_true, decide_eq_true_eq] at hgf
        exact hgf.2
      rw [unparseKids_cons_list k xs rest hpk, parseChildren_append]
      cases xs with
      | nil => simp at hxlen
      | cons x0 xs1 =>
        cases xs1 with
        | nil => simp at hxlen
        | cons x1 xrest =>
          simp only [goodItems, Bool.and_eq_true] at hxitems
          have hblock : parseChildren [] acc (unparseItems k (x0 :: x1 :: xrest))
              = acc ++ [(k, XValue.list (x0 :: x1 :: xrest))] := by
            simp only [unparseItems, parseChildren]
            rw [tagOf_unparseOne, rt_val k x0 hxitems.1,
                pushData_fresh acc k x0 hlk,
                tagOf_unparseOne, rt_val k x1 hxitems.2.1,
                pushData_promote _ k x0 x1 (lookupX_append_single acc k x0 hlk)
                  (goodVal_not_list x0 hxitems.1),
                setX_append_single acc k x0 _ hlk,
                rt_items k xrest _ [x0, x1] hxitems.2.2
                  (lookupX_append_single acc k _ hlk),
                setX_append_single acc k _ _ hlk]
            rfl
          rw [hblock,
            rt_pairs rest (acc ++ [(k, XValue.list (x0 :: x1 :: xrest))]) hgp (haccrest _)]
          simp
    | null =>
      rw [unparseKids_cons_nonlist k XValue.null rest (fun _ hh => XValue.noConfusion hh) hpk]
      simp only [parseChildren]
      rw [tagOf_unparseOne, rt_val k XValue.null rfl, pushData_fresh acc k XValue.null hlk,
        rt_pairs rest (acc ++ [(k, XValue.null)]) hgp (haccrest _)]
      simp
    | str s =>
      have hgv : goodVal (XValue.str s) = true :=
        goodField_nonlist _ (fun _ hh => XValue.noConfusion hh) hgf
      rw [unparseKids_cons_nonlist k (XValue.str s) rest (fun _ hh => XValue.noConfusion hh) hpk]
      simp only [parseChildren]
      rw [tagOf_unparseOne, rt_val k (XValue.str s) hgv, pushData_fresh acc k (XValue.str s) hlk,
        rt_pairs rest (acc ++ [(k, XValue.str s)]) hgp (haccrest _)]
      simp
    | obj qs =>
      have hgv : goodVal (XValue.obj qs) = true :=
        goodField_nonlist _ (fun _ hh => XValue.noConfusion hh) hgf
      rw [unparseKids_cons_nonlist k (XValue.obj qs) rest (fun _ hh => XValue.noConfusion hh) hpk]
      simp only [parseChildren]
      rw [tagOf_unparseOne, rt_val k (XValue.obj qs) hgv, pushData_fresh acc k (XValue.obj qs) hlk,
        rt_pairs rest (acc ++ [(k, XValue.obj qs)]) hgp (haccrest _)]
      simp

theorem rt_items (k : String) (xs : List XValue) (acc : List (String × XValue))
    (cur : List XValue) (h : goodItems xs = true)
    (hcur : lookupX acc k = some (XValue.list cur)) :
    parseChildren [] acc (unparseItems k xs) = setX acc k (XValue.list (cur ++ xs)) := by
  cases xs with
  | nil =>
    simp only [unparseItems, parseChildren, List.append_nil]
    exact (setX_lookup_self acc k _ hcur).symm
  | cons x rest =>
    simp only [goodItems, Bool.and_eq_true] at h
    simp only [unparseItems, parseChildren]
    rw [tagOf_unparseOne, rt_val k x h.1, pushData_append_list acc k cur x hcur,
      rt_items k rest _ (cur ++ [x]) h.2 (lookupX_setX_self acc k _ _ hcur),
      setX_setX]
    simp

end

/-- C6 counterexample: the value holding an empty-string field is free
of ambiguous single/multi children, yet serializing and re-parsing it
yields null for that field instead of the empty string, because writing
an empty string writes no character data: the round trip fails as
universally stated. -/
theorem claim_C6_counterexample :
  parseElem [] (unparseOne "list" (XValue.obj [("description", XValue.str "")]))
    = XValue.obj [("description", XValue.null)] ∧
  XValue.obj [("description", XValue.null)] ≠ XValue.obj [("description", XValue.str "")] :=
  ⟨rfl, by simp⟩

/-- C6 (amended): parse(serialize(r, v), empty force list) = v holds for
every generic value whose strings are nonempty and unchanged by
whitespace stripping (the parser strips character data at both ends),
whose dictionaries are nonempty with distinct plain element-name keys,
and whose lists appear as field values with at least two elements (so
no zero or one element cardinality ambiguity and no text loss). -/
theorem claim_C6 (r : String) (v : XValue) (h : goodVal v = true) :
    parseElem [] (unparseOne r v) = v :=
  rt_val r v h

theorem claim_C6_witness :
  goodVal (XValue.obj [("channel", XValue.list [XValue.str "a", XValue.str "b"]),
    ("x", XValue.null)]) = true ∧
  parseElem [] (unparseOne "list" (XValue.obj
    [("channel", XValue.list [XValue.str "a", XValue.str "b"]), ("x", XValue.null)]))
    = XValue.obj [("channel", XValue.list [XValue.str "a", XValue.str "b"]),
        ("x", XValue.null)] :=
  ⟨rfl, claim_C6 "list"
    (XValue.obj [("channel", XValue.list [XValue.str "a", XValue.str "b"]),
      ("x", XValue.null)]) rfl⟩
